import Mathlib

/-!
Verification of the pre-deploy snapshot workflow (`snapshot-before-deploy.py`).

The script locates the VM/LXC whose hostname matches the local machine across
several Proxmox endpoints, detaches LXC mount points around a snapshot request,
polls the resulting task, and restores the mount points on every exit path.

The embedding below models each Python function as a pure Lean function.
Remote behaviour (HTTP responses and their failures) is supplied as explicit
inputs: a `Fetch` value models one `make_request` outcome (`fatal` is the
script's `fatal(...)`/`sys.exit(1)` path, raised as `SystemExit`), and every
function additionally returns the ordered list of API calls it issued, so that
the claims about "exactly N removal calls", "no snapshot call", etc. are
statements about explicit traces.
-/

/-- Poll interval of the task awaiter, seconds (`TASK_POLL_INTERVAL = 2`). -/
def TASK_POLL_INTERVAL : Nat := 2

/-- Task timeout of the task awaiter, seconds (`TASK_TIMEOUT = 120`). -/
def TASK_TIMEOUT : Nat := 120

/-- Wall-clock reading at second resolution, as produced by `datetime.now()`
and consumed by `strftime("%d_%m_%Y_%H_%M_%S")`.  Sub-second precision is
irrelevant to the generated snapshot name, which only renders whole seconds. -/
structure DateTime where
  year : Nat
  month : Nat
  day : Nat
  hour : Nat
  minute : Nat
  second : Nat
  deriving DecidableEq

/-- Field ranges of a real clock reading: Python `datetime` bounds the year by
`MAXYEAR = 9999`; we restrict to four-digit years (every real run since 1970
satisfies this), months 1..12, days 1..31, and sexagesimal time fields. -/
def DateTime.Valid (dt : DateTime) : Prop :=
  1000 ≤ dt.year ∧ dt.year ≤ 9999 ∧ 1 ≤ dt.month ∧ dt.month ≤ 12 ∧
    1 ≤ dt.day ∧ dt.day ≤ 31 ∧ dt.hour < 24 ∧ dt.minute < 60 ∧ dt.second < 60

instance (dt : DateTime) : Decidable dt.Valid := by
  unfold DateTime.Valid
  exact inferInstance

/-- Two decimal digits with leading zero, as `strftime` renders `%d`, `%m`,
`%H`, `%M`, `%S`. -/
def pad2 (n : Nat) : List Char :=
  [Nat.digitChar (n / 10), Nat.digitChar (n % 10)]

/-- Four decimal digits, as `strftime` renders `%Y` for four-digit years. -/
def pad4 (n : Nat) : List Char :=
  [Nat.digitChar (n / 1000), Nat.digitChar (n / 100 % 10),
    Nat.digitChar (n / 10 % 10), Nat.digitChar (n % 10)]

/-- Character rendering of `datetime.now().strftime("%d_%m_%Y_%H_%M_%S")`. -/
def tsChars (dt : DateTime) : List Char :=
  pad2 dt.day ++ '_' :: pad2 dt.month ++ '_' :: pad4 dt.year ++
    '_' :: pad2 dt.hour ++ '_' :: pad2 dt.minute ++ '_' :: pad2 dt.second

/-- The `DD_MM_YYYY_HH_MM_SS` timestamp string. -/
def timestampStr (dt : DateTime) : String :=
  String.mk (tsChars dt)

/-- Snapshot name: `snapname = f"pre_deploy_{timestamp}"`. -/
def snapnameOf (dt : DateTime) : String :=
  "pre_deploy_" ++ timestampStr dt

/-- Default rendering of a second-resolution `datetime` value
(`YYYY-MM-DD HH:MM:SS`), used inside the snapshot description string. -/
def defaultTimeStr (dt : DateTime) : String :=
  String.mk (pad4 dt.year ++ '-' :: pad2 dt.month ++ '-' :: pad2 dt.day ++
    ' ' :: pad2 dt.hour ++ ':' :: pad2 dt.minute ++ ':' :: pad2 dt.second)

/-- Snapshot description:
`description = f"Pre-deployment of stack {stack} at {datetime.now()}"`,
where `stack` is the basename of the current working directory. -/
def descriptionOf (stack : String) (dt : DateTime) : String :=
  "Pre-deployment of stack " ++ stack ++ " at " ++ defaultTimeStr dt

/-- One observable Proxmox API call, identified by its route and payload.
`snapshotRequest` carries the `vmstate0` flag (`vmstate = 0`, sent for QEMU
VMs only); `deleteMountPoint` and `restoreMountPoint` are the two `PUT
lxc/<vmid>/config` payload shapes. -/
inductive ApiCall where
  | listVms (vmType : String)
  | getConfig (vmid : Nat)
  | agentHostnameQuery (vmid : Nat)
  | deleteMountPoint (vmid : Nat) (key : String)
  | restoreMountPoint (vmid : Nat) (key : String) (val : String)
  | snapshotRequest (vmType : String) (vmid : Nat) (name descr : String) (vmstate0 : Bool)
  | taskStatusQuery (upid : String)
  deriving DecidableEq

/-- A call that mutates remote state: the two `PUT .../config` shapes and the
`POST .../snapshot` request.  Listing, config reads, agent queries and task
status reads are plain GETs. -/
def ApiCall.isMutating : ApiCall → Bool
  | .deleteMountPoint _ _ => true
  | .restoreMountPoint _ _ _ => true
  | .snapshotRequest _ _ _ _ _ => true
  | _ => false

/-- Recognizer for mount-point removal calls. -/
def ApiCall.isDelete : ApiCall → Bool
  | .deleteMountPoint _ _ => true
  | _ => false

/-- Recognizer for mount-point restoration calls. -/
def ApiCall.isRestore : ApiCall → Bool
  | .restoreMountPoint _ _ _ => true
  | _ => false

/-- Recognizer for snapshot requests. -/
def ApiCall.isSnapshotReq : ApiCall → Bool
  | .snapshotRequest _ _ _ _ _ => true
  | _ => false

/-- Outcome of one `make_request` call: `fatal` models the script's
`fatal(...)` path (printing `ERROR:` and raising `SystemExit(1)`), `ok`
carries the parsed `data` payload. -/
inductive Fetch (α : Type) where
  | fatal
  | ok (val : α)
  deriving DecidableEq

/-- One task-status poll result, as read from `GET tasks/<upid>/status`:
`running` for any status other than `"stopped"`, `stopped es` for status
`"stopped"` with exit status `es`. -/
inductive TaskStatusView where
  | running
  | stopped (exitstatus : String)
  deriving DecidableEq

/-- Terminal outcome of `wait_for_task`. -/
inductive WaitOutcome where
  | success
  | taskFailed (exitstatus : String)
  | timedOut
  deriving DecidableEq

/-- Number of loop iterations of `wait_for_task` whose elapsed-time guard
`elapsed > TASK_TIMEOUT` is still false, in the idealized timing where the
i-th iteration starts at elapsed time `i * TASK_POLL_INTERVAL` (status
requests are instantaneous and every sleep lasts exactly the poll interval):
the guard first fires at iteration `TASK_TIMEOUT / TASK_POLL_INTERVAL + 1`
(see `waitChecks_spec`). -/
def waitChecks : Nat := TASK_TIMEOUT / TASK_POLL_INTERVAL + 1

/-- Loop body of `wait_for_task`.  `i` is the iteration index (the i-th
status poll happens at elapsed time `i * TASK_POLL_INTERVAL`), the countdown
argument is `waitChecks - i`.  Returns the terminal outcome and the number of
status polls issued from iteration `i` on. -/
def wait_aux (statusAt : Nat → TaskStatusView) (i : Nat) : Nat → WaitOutcome × Nat
  | 0 => (.timedOut, 0)
  | n + 1 =>
    match statusAt i with
    | .stopped es => if es = "OK" then (.success, 1) else (.taskFailed es, 1)
    | .running =>
      let r := wait_aux statusAt (i + 1) n
      (r.1, r.2 + 1)

/-- `wait_for_task`, as a function of the remote task's status at each poll:
poll, classify `"stopped"` polls by exit status, otherwise sleep and repeat
until the elapsed-time guard fires. -/
def wait_for_task (statusAt : Nat → TaskStatusView) : WaitOutcome × Nat :=
  wait_aux statusAt 0 waitChecks

/-- The countdown of `wait_aux` agrees with the source's elapsed-time guard:
iteration `i` is past the deadline (`i * TASK_POLL_INTERVAL > TASK_TIMEOUT`)
exactly when the countdown started at `waitChecks` has reached zero. -/
theorem waitChecks_spec (i : Nat) :
    TASK_TIMEOUT < i * TASK_POLL_INTERVAL ↔ waitChecks ≤ i := by
  simp only [TASK_TIMEOUT, TASK_POLL_INTERVAL, waitChecks]
  omega

/-- One LXC container as observed through the API: its `vmid` field from the
listing (absent entries are skipped by the locator) and the outcome of
`GET lxc/<vmid>/config` (the config is a key/value mapping; JSON objects have
distinct keys, but none of the statements below depend on that). -/
structure LxcEnt where
  vmid : Option Nat
  configFetch : Fetch (List (String × String))
  deriving DecidableEq

/-- One QEMU VM as observed through the API: its `vmid` field and the outcome
of `GET qemu/<vmid>/agent/get-host-name`.  `Fetch.fatal` models the guest
agent being unavailable (the call errors out); `ok h` carries the optional
`result.host-name` field. -/
structure QemuEnt where
  vmid : Option Nat
  agentFetch : Fetch (Option String)
  deriving DecidableEq

/-- One configured Proxmox endpoint together with the outcomes of its two
listing calls `GET lxc` and `GET qemu`. -/
structure ProxmoxHost where
  url : String
  lxcList : Fetch (List LxcEnt)
  qemuList : Fetch (List QemuEnt)
  deriving DecidableEq

/-- First value bound to `key` in an association list (`dict.get(key)`). -/
def lookupKey : List (String × String) → String → Option String
  | [], _ => none
  | (k, v) :: rest, key => if k = key then some v else lookupKey rest key

/-- `get_lxc_hostname`: fetch the container config and read its `hostname`
key.  A failed config fetch propagates the fatal exit. -/
def get_lxc_hostname (e : LxcEnt) : Fetch (Option String) :=
  match e.configFetch with
  | .fatal => .fatal
  | .ok cfg => .ok (lookupKey cfg "hostname")

/-- `get_qemu_hostname`: query the guest agent; the `try/except SystemExit`
around `make_request` turns ANY failure of this one call into `None`
("guest agent not available"), so no fatal exit escapes. -/
def get_qemu_hostname (e : QemuEnt) : Option String :=
  match e.agentFetch with
  | .fatal => none
  | .ok h => h

/-- The LXC loop of `find_host_in_proxmox`: skip entries without `vmid`,
fetch each container's hostname (fatal on a failed config fetch), return the
first `vmid` whose hostname equals the target.  Also returns the issued
config-read calls in order. -/
def findLxcIn (target : String) : List LxcEnt → Fetch (Option Nat) × List ApiCall
  | [] => (.ok none, [])
  | e :: rest =>
    match e.vmid with
    | none => findLxcIn target rest
    | some v =>
      match get_lxc_hostname e with
      | .fatal => (.fatal, [ApiCall.getConfig v])
      | .ok h =>
        if h = some target then (.ok (some v), [ApiCall.getConfig v])
        else
          let r := findLxcIn target rest
          (r.1, ApiCall.getConfig v :: r.2)

/-- The QEMU loop of `find_host_in_proxmox`: skip entries without `vmid`,
skip entities whose guest agent is unavailable, return the first `vmid`
whose agent-reported hostname equals the target. -/
def findQemuIn (target : String) : List QemuEnt → Option Nat × List ApiCall
  | [] => (none, [])
  | e :: rest =>
    match e.vmid with
    | none => findQemuIn target rest
    | some v =>
      match get_qemu_hostname e with
      | none =>
        let r := findQemuIn target rest
        (r.1, ApiCall.agentHostnameQuery v :: r.2)
      | some h =>
        if h = target then (some v, [ApiCall.agentHostnameQuery v])
        else
          let r := findQemuIn target rest
          (r.1, ApiCall.agentHostnameQuery v :: r.2)

/-- `find_host_in_proxmox`: iterate the configured endpoints in order; within
each, list and scan all LXC containers, then all QEMU VMs; return on the
first hostname match.  A fatal exit from a listing call or a container
config fetch aborts the whole search. -/
def find_host_in_proxmox :
    List ProxmoxHost → String → Fetch (Option (ProxmoxHost × String × Nat)) × List ApiCall
  | [], _ => (.ok none, [])
  | hc :: rest, target =>
    match hc.lxcList with
    | .fatal => (.fatal, [ApiCall.listVms "lxc"])
    | .ok lxcs =>
      let rl := findLxcIn target lxcs
      match rl.1 with
      | .fatal => (.fatal, ApiCall.listVms "lxc" :: rl.2)
      | .ok (some v) => (.ok (some (hc, "lxc", v)), ApiCall.listVms "lxc" :: rl.2)
      | .ok none =>
        match hc.qemuList with
        | .fatal => (.fatal, ApiCall.listVms "lxc" :: rl.2 ++ [ApiCall.listVms "qemu"])
        | .ok qemus =>
          let rq := findQemuIn target qemus
          match rq.1 with
          | some v =>
            (.ok (some (hc, "qemu", v)),
              ApiCall.listVms "lxc" :: rl.2 ++ ApiCall.listVms "qemu" :: rq.2)
          | none =>
            let rr := find_host_in_proxmox rest target
            (rr.1, ApiCall.listVms "lxc" :: rl.2 ++ ApiCall.listVms "qemu" :: rq.2 ++ rr.2)

/-- Character-sequence test that `cs` starts with `ps`. -/
def listStartsWith : List Char → List Char → Bool
  | _, [] => true
  | [], _ :: _ => false
  | c :: cs, p :: ps => c = p && listStartsWith cs ps

/-- Python's `str.startswith`, as a test on the character sequences of the
two strings (Lean's built-in byte-position variant is not evaluable by the
kernel, so the embedding spells it out on `String.data`). -/
def strStartsWith (s p : String) : Bool :=
  listStartsWith s.data p.data

/-- Mount-point entries of an LXC config:
`{k: v for k, v in config.items() if k.startswith("mp")}`. -/
def mountPointsOf (config : List (String × String)) : List (String × String) :=
  config.filter (fun kv => strStartsWith kv.1 "mp")

/-- The removal loop of `create_lxc_snapshot`'s `try` block: one
`delete_lxc_mount_point` call per mount-point key, in order.  `deleteOk`
says whether each `PUT` succeeds; the first failing call is still issued
(`make_request` errors after sending) and then raises the fatal exit, so the
loop stops there.  Returns whether all removals succeeded, and the calls. -/
def removePhase (deleteOk : String → Bool) (vmid : Nat) :
    List (String × String) → Bool × List ApiCall
  | [] => (true, [])
  | (k, _) :: rest =>
    if deleteOk k then
      let r := removePhase deleteOk vmid rest
      (r.1, ApiCall.deleteMountPoint vmid k :: r.2)
    else (false, [ApiCall.deleteMountPoint vmid k])

/-- The restoration loop of `create_lxc_snapshot`'s `finally` block: one
`restore_lxc_mount_point` call per originally enumerated mount point with its
original value; a failing call (`except SystemExit`) only appends a
`WARNING:` line and the loop continues.  Returns the calls and warnings. -/
def restorePhase (restoreOk : String → Bool) (vmid : Nat) :
    List (String × String) → List ApiCall × List String
  | [] => ([], [])
  | (k, v) :: rest =>
    let r := restorePhase restoreOk vmid rest
    (ApiCall.restoreMountPoint vmid k v :: r.1,
      if restoreOk k then r.2 else ("WARNING: Failed to restore " ++ k) :: r.2)

/-- `create_snapshot_request` followed by `wait_for_task`: issue the
`POST .../snapshot` call (with `vmstate = 0` for QEMU VMs only), fail fatally
if the call fails or returns no UPID (`ok none` also covers an empty-string
UPID, which Python's `if not upid` treats the same), otherwise poll the task.
Returns overall success and the issued calls. -/
def snapshotAndWait (vmType : String) (vmid : Nat) (snapReqResult : Fetch (Option String))
    (statusAt : Nat → TaskStatusView) (dt : DateTime) (stack : String) :
    Bool × List ApiCall :=
  let req := ApiCall.snapshotRequest vmType vmid (snapnameOf dt)
    (descriptionOf stack dt) (vmType = "qemu")
  match snapReqResult with
  | .fatal => (false, [req])
  | .ok none => (false, [req])
  | .ok (some upid) =>
    let w := wait_for_task statusAt
    (match w.1 with
      | .success => true
      | _ => false,
      req :: List.replicate w.2 (ApiCall.taskStatusQuery upid))

/-- Remote behaviour surrounding one `create_lxc_snapshot` run: the fetched
container config (the initial `get_lxc_config` call is assumed to succeed;
its failure would abort before the `try` block), the success of each
removal `PUT`, the snapshot request's result, the task's status at each poll,
the success of each restoration `PUT`, the clock reading taken when the
snapshot call is prepared, and the working-directory basename. -/
structure LxcSnapEnv where
  config : List (String × String)
  deleteOk : String → Bool
  snapReqResult : Fetch (Option String)
  statusAt : Nat → TaskStatusView
  restoreOk : String → Bool
  now : DateTime
  stack : String

/-- `create_lxc_snapshot`: fetch the config, collect the `mp*` keys, remove
them one by one, request the snapshot and await its task, and in the
`finally` scope restore every collected mount point whatever happened in the
`try` block.  Returns (normal return?, issued calls, warnings); a `false`
first component means the pending `SystemExit` propagates after the
`finally` block, terminating the process with exit code 1. -/
def create_lxc_snapshot (env : LxcSnapEnv) (vmid : Nat) :
    Bool × List ApiCall × List String :=
  let mps := mountPointsOf env.config
  let rem := removePhase env.deleteOk vmid mps
  let tryRes : Bool × List ApiCall :=
    if rem.1 then
      let s := snapshotAndWait "lxc" vmid env.snapReqResult env.statusAt env.now env.stack
      (s.1, rem.2 ++ s.2)
    else (false, rem.2)
  let fin := restorePhase env.restoreOk vmid mps
  (tryRes.1, ApiCall.getConfig vmid :: tryRes.2 ++ fin.1, fin.2)

/-- Remote behaviour surrounding one `create_qemu_snapshot` run. -/
structure QemuSnapEnv where
  snapReqResult : Fetch (Option String)
  statusAt : Nat → TaskStatusView
  now : DateTime
  stack : String

/-- `create_qemu_snapshot`: snapshot request (with `vmstate = 0`) and task
await, no mount-point handling. -/
def create_qemu_snapshot (env : QemuSnapEnv) (vmid : Nat) : Bool × List ApiCall :=
  snapshotAndWait "qemu" vmid env.snapReqResult env.statusAt env.now env.stack

/-- `main` (after config loading, which is out of scope): read the local
hostname, locate it across the endpoints, fail fatally when not found or on
a locator fatal exit, otherwise dispatch `snapshot_vm` on the entity type.
Returns (process exit code, issued calls, warnings). -/
def mainModel (hosts : List ProxmoxHost) (localHostname : String)
    (lxcEnv : LxcSnapEnv) (qemuEnv : QemuSnapEnv) : Nat × List ApiCall × List String :=
  let f := find_host_in_proxmox hosts localHostname
  match f.1 with
  | .fatal => (1, f.2, [])
  | .ok none => (1, f.2, [])
  | .ok (some (_, vmType, vmid)) =>
    if vmType = "lxc" then
      let r := create_lxc_snapshot lxcEnv vmid
      (if r.1 then 0 else 1, f.2 ++ r.2.1, r.2.2)
    else if vmType = "qemu" then
      let r := create_qemu_snapshot qemuEnv vmid
      (if r.1 then 0 else 1, f.2 ++ r.2, [])
    else (1, f.2, [])

/-- Modelled from the spec: the source path encoded in a mount-point value.
The repository's second workflow variant (the bind-mount-skip policy of
spec §4.3) is not among the provided sources; §3 describes a mount-point
value as "encoding a source path, destination path, and options", with the
source path as the leading, comma-separated component. -/
def mountSource (v : String) : String :=
  String.mk (v.data.takeWhile (fun c => c ≠ ','))

/-- Modelled from the spec: bind-mount classification of §3/§4.3 — "a
mount-point value whose source path is absolute (begins with a path-root
marker) denotes a bind mount". -/
def isBindMount (v : String) : Bool :=
  strStartsWith (mountSource v) "/"

/-- Terminal report of a snapshot procedure under the bind-mount-skip policy:
completed, intentionally skipped, or process-fatal. -/
inductive SnapOutcome where
  | completed
  | skipped
  | failed
  deriving DecidableEq

/-- Process exit code for a snapshot outcome, per spec §6: "0 on success or
intentional skip; 1 on any fatal condition". -/
def SnapOutcome.exitCode : SnapOutcome → Nat
  | .failed => 1
  | _ => 0

/-- Remote behaviour surrounding one bind-mount-skip snapshot run. -/
structure BindSkipEnv where
  config : List (String × String)
  snapReqResult : Fetch (Option String)
  statusAt : Nat → TaskStatusView
  now : DateTime
  stack : String

/-- Modelled from the spec: the bind-mount-skip container snapshot procedure
of §4.3 (part of the repository's second, unprovided workflow variant) —
"enumerate mount-point configuration keys; classify each as a bind mount if
its value's source path is absolute.  If one or more bind mounts exist, abort
the snapshot for this entity with a warning (not a fatal error) and report
'skipped' to the caller ...  If none exist, proceed directly to the snapshot
call with no mutation." -/
def create_lxc_snapshot_skip (env : BindSkipEnv) (vmid : Nat) :
    SnapOutcome × List ApiCall × List String :=
  let mps := mountPointsOf env.config
  let binds := mps.filter (fun kv => isBindMount kv.2)
  if binds.isEmpty then
    let s := snapshotAndWait "lxc" vmid env.snapReqResult env.statusAt env.now env.stack
    (if s.1 then .completed else .failed, ApiCall.getConfig vmid :: s.2, [])
  else
    (.skipped, [ApiCall.getConfig vmid],
      ["WARNING: bind mounts present, skipping snapshot"])

/-- Spec-side description (§4.2) of which container entities match the target:
the entity has a usable id and its config-reported hostname equals the target
under exact string equality.  Used to state the locator's refinement. -/
def lxcMatchIds (target : String) (l : List LxcEnt) : List Nat :=
  l.filterMap (fun e =>
    match e.vmid with
    | none => none
    | some v =>
      match get_lxc_hostname e with
      | .ok h => if h = some target then some v else none
      | .fatal => none)

/-- Spec-side description (§4.2) of which machine entities match the target:
usable id, guest agent available, and agent-reported hostname equal to the
target. -/
def qemuMatchIds (target : String) (l : List QemuEnt) : List Nat :=
  l.filterMap (fun e =>
    match e.vmid with
    | none => none
    | some v =>
      match get_qemu_hostname e with
      | none => none
      | some h => if h = target then some v else none)

/-- Spec-side scan order of one endpoint (§4.2): "first enumerate all
container-type entities, then all machine-type entities". -/
def hostMatches (target : String) (hc : ProxmoxHost) : List (ProxmoxHost × String × Nat) :=
  (match hc.lxcList with
    | .fatal => []
    | .ok l => (lxcMatchIds target l).map (fun v => (hc, "lxc", v)))
  ++ (match hc.qemuList with
    | .fatal => []
    | .ok q => (qemuMatchIds target q).map (fun v => (hc, "qemu", v)))

/-- Spec-side scan order across endpoints (§4.2): "iterate endpoints in
configured order", each endpoint contributing containers before machines.
The locator must return the head of this list. -/
def specScanMatches (hosts : List ProxmoxHost) (target : String) :
    List (ProxmoxHost × String × Nat) :=
  match hosts with
  | [] => []
  | hc :: rest => hostMatches target hc ++ specScanMatches rest target

/-- Whether every listing call and every container config fetch of the
configured endpoints would succeed (guest-agent queries are deliberately NOT
constrained: their failures are handled in place). -/
def lxcOk (e : LxcEnt) : Bool :=
  match e.configFetch with
  | .fatal => false
  | .ok _ => true

/-- Per-endpoint transport-health: both listing calls succeed and every
listed container's config fetch succeeds. -/
def hostOk (hc : ProxmoxHost) : Bool :=
  (match hc.lxcList with
    | .fatal => false
    | .ok l => l.all lxcOk)
  && (match hc.qemuList with
    | .fatal => false
    | .ok _ => true)

/-- All endpoints transport-healthy (agent queries unconstrained). -/
def noTransportFailure (hosts : List ProxmoxHost) : Bool :=
  hosts.all hostOk

/-- Whether an endpoint contains at least one matching container entity. -/
def hasLxcMatch (target : String) (hc : ProxmoxHost) : Bool :=
  match hc.lxcList with
  | .fatal => false
  | .ok l => !(lxcMatchIds target l).isEmpty

/-- A task that never stops exhausts the whole countdown: every admitted
iteration polls once, then the guard fires. -/
theorem wait_aux_running (statusAt : Nat → TaskStatusView)
    (h : ∀ j, statusAt j = TaskStatusView.running) :
    ∀ n i, wait_aux statusAt i n = (WaitOutcome.timedOut, n) := by
  intro n
  induction n with
  | zero => intro i; rfl
  | succ n ih =>
    intro i
    simp only [wait_aux, h i, ih (i + 1)]

/-- When every removal call succeeds, the removal loop issues exactly one
delete per mount-point key, in configuration order. -/
theorem removePhase_ok (deleteOk : String → Bool) (vmid : Nat)
    (l : List (String × String)) (h : ∀ kv ∈ l, deleteOk kv.1 = true) :
    removePhase deleteOk vmid l =
      (true, l.map (fun kv => ApiCall.deleteMountPoint vmid kv.1)) := by
  induction l with
  | nil => rfl
  | cons kv rest ih =>
    obtain ⟨k, v⟩ := kv
    have hk : deleteOk k = true := h (k, v) (List.mem_cons_self _ _)
    simp only [removePhase, hk, if_true, List.map_cons,
      ih (fun kv2 hkv2 => h kv2 (List.mem_cons_of_mem _ hkv2))]

/-- When the removal call for key `kv.1` fails after all earlier removals
succeeded, the loop issues the earlier deletes plus the failing one and
stops with the fatal exit pending. -/
theorem removePhase_fail (deleteOk : String → Bool) (vmid : Nat)
    (pre : List (String × String)) (kv : String × String)
    (post : List (String × String))
    (hpre : ∀ kv2 ∈ pre, deleteOk kv2.1 = true) (hk : deleteOk kv.1 = false) :
    removePhase deleteOk vmid (pre ++ kv :: post) =
      (false, (pre ++ [kv]).map (fun kv2 => ApiCall.deleteMountPoint vmid kv2.1)) := by
  induction pre with
  | nil =>
    obtain ⟨k, v⟩ := kv
    simp only [List.nil_append, removePhase, hk, Bool.false_eq_true, if_false,
      List.map_cons, List.map_nil]
  | cons kv2 rest ih =>
    obtain ⟨k2, v2⟩ := kv2
    have hk2 : deleteOk k2 = true := hpre (k2, v2) (List.mem_cons_self _ _)
    have ih2 := ih (fun kv3 hkv3 => hpre kv3 (List.mem_cons_of_mem _ hkv3))
    simp [removePhase, hk2, ih2]

/-- The restoration loop issues exactly one restore per originally
enumerated mount point, carrying the original value, regardless of which
restoration calls fail. -/
theorem restorePhase_fst (restoreOk : String → Bool) (vmid : Nat)
    (l : List (String × String)) :
    (restorePhase restoreOk vmid l).1 =
      l.map (fun kv => ApiCall.restoreMountPoint vmid kv.1 kv.2) := by
  induction l with
  | nil => rfl
  | cons kv rest ih =>
    obtain ⟨k, v⟩ := kv
    simp only [restorePhase, List.map_cons, ih]

/-- The restoration loop warns exactly on the keys whose restore call
failed. -/
theorem restorePhase_snd (restoreOk : String → Bool) (vmid : Nat)
    (l : List (String × String)) :
    (restorePhase restoreOk vmid l).2 =
      (l.filter (fun kv => !restoreOk kv.1)).map
        (fun kv => "WARNING: Failed to restore " ++ kv.1) := by
  induction l with
  | nil => rfl
  | cons kv rest ih =>
    obtain ⟨k, v⟩ := kv
    by_cases hk : restoreOk k = true
    · simp only [restorePhase, hk, if_true, ih, List.filter_cons, Bool.not_true,
        Bool.false_eq_true, if_false]
    · simp only [Bool.not_eq_true] at hk
      simp only [restorePhase, hk, Bool.false_eq_true, if_false, ih,
        List.filter_cons, Bool.not_false, if_true, List.map_cons]

/-- The snapshot-and-await step always opens with the one snapshot request
(carrying the generated name and description, and `vmstate = 0` exactly for
QEMU VMs), followed only by task status polls. -/
theorem snapshotAndWait_trace (vmType : String) (vmid : Nat)
    (res : Fetch (Option String)) (statusAt : Nat → TaskStatusView)
    (dt : DateTime) (stack : String) :
    ∃ polls : List ApiCall,
      (snapshotAndWait vmType vmid res statusAt dt stack).2 =
        ApiCall.snapshotRequest vmType vmid (snapnameOf dt)
          (descriptionOf stack dt) (vmType = "qemu") :: polls ∧
      ∀ c ∈ polls, ∃ u, c = ApiCall.taskStatusQuery u := by
  match res with
  | .fatal => exact ⟨[], rfl, by simp⟩
  | .ok none => exact ⟨[], rfl, by simp⟩
  | .ok (some upid) =>
    refine ⟨List.replicate (wait_for_task statusAt).2 (ApiCall.taskStatusQuery upid),
      rfl, ?_⟩
    intro c hc
    exact ⟨upid, List.eq_of_mem_replicate hc⟩

/-- No call of the snapshot-and-await step is a removal or a restoration. -/
theorem snapshotAndWait_no_config_put (vmType : String) (vmid : Nat)
    (res : Fetch (Option String)) (statusAt : Nat → TaskStatusView)
    (dt : DateTime) (stack : String) :
    ∀ c ∈ (snapshotAndWait vmType vmid res statusAt dt stack).2,
      c.isDelete = false ∧ c.isRestore = false := by
  obtain ⟨polls, htr, hpolls⟩ := snapshotAndWait_trace vmType vmid res statusAt dt stack
  intro c hc
  rw [htr] at hc
  rcases List.mem_cons.1 hc with hc | hc
  · subst hc; exact ⟨rfl, rfl⟩
  · obtain ⟨u, hu⟩ := hpolls c hc
    subst hu; exact ⟨rfl, rfl⟩

/-- Structure of a `create_lxc_snapshot` run in which every removal
succeeds: config read, then one delete per mount point, then the snapshot
request and its polls, then one restore per mount point — whatever the
snapshot request, the task polls and the restoration calls do. -/
theorem create_lxc_snapshot_ok_trace (env : LxcSnapEnv) (vmid : Nat)
    (hdel : ∀ kv ∈ mountPointsOf env.config, env.deleteOk kv.1 = true) :
    create_lxc_snapshot env vmid =
      ((snapshotAndWait "lxc" vmid env.snapReqResult env.statusAt env.now env.stack).1,
        ApiCall.getConfig vmid ::
          ((mountPointsOf env.config).map (fun kv => ApiCall.deleteMountPoint vmid kv.1)
            ++ (snapshotAndWait "lxc" vmid env.snapReqResult env.statusAt env.now env.stack).2
            ++ (mountPointsOf env.config).map
                (fun kv => ApiCall.restoreMountPoint vmid kv.1 kv.2)),
        (restorePhase env.restoreOk vmid (mountPointsOf env.config)).2) := by
  simp [create_lxc_snapshot, removePhase_ok env.deleteOk vmid _ hdel,
    restorePhase_fst, List.append_assoc]

/-- Every call issued by the removal loop is a mount-point delete. -/
theorem removePhase_calls (deleteOk : String → Bool) (vmid : Nat)
    (l : List (String × String)) :
    ∀ c ∈ (removePhase deleteOk vmid l).2, ∃ k, c = ApiCall.deleteMountPoint vmid k := by
  induction l with
  | nil => intro c hc; simp [removePhase] at hc
  | cons kv rest ih =>
    obtain ⟨k, v⟩ := kv
    intro c hc
    by_cases hk : deleteOk k = true
    · simp only [removePhase, hk, if_true, List.mem_cons] at hc
      rcases hc with hc | hc
      · exact ⟨k, hc⟩
      · exact ih c hc
    · simp only [Bool.not_eq_true] at hk
      simp only [removePhase, hk, Bool.false_eq_true, if_false, List.mem_cons,
        List.not_mem_nil, or_false] at hc
      exact ⟨k, hc⟩

/-- C3 — counterexample.  The claim predicts `ceil(timeout / poll_interval)
= ceil(120 / 2) = 60` status polls before the timeout is reported; on the
task that never stops, the code performs 61 polls: since the guard
`elapsed > TASK_TIMEOUT` is strict and checked before each poll, the poll at
elapsed time exactly 120 s (the 61st) still happens. -/
theorem c3_timeout_poll_count_counterexample :
    wait_for_task (fun _ => TaskStatusView.running) = (WaitOutcome.timedOut, 61) ∧
    (TASK_TIMEOUT + TASK_POLL_INTERVAL - 1) / TASK_POLL_INTERVAL = 60 ∧
    (61 : Nat) ≠ 60 :=
  ⟨by decide, by decide, by decide⟩

/-- C3 (amended): for every task whose reported status never equals
`"stopped"`, `wait_for_task` reports a fatal timeout after exactly
`floor(timeout / poll_interval) + 1 = 61` status polls — one more than the
claimed `ceil(timeout / poll_interval)`, because the strict guard
`elapsed > TASK_TIMEOUT` still admits the poll at elapsed time exactly
`TASK_TIMEOUT` — and performs no further polls (timing idealized as:
status requests instantaneous, each sleep exactly `TASK_POLL_INTERVAL`).
The terminal outcomes of the model are exhaustively stopped-OK
(`success`), stopped-non-OK (`taskFailed`), and `timedOut`, per the claim's
second half. -/
theorem c3_wait_for_task_timeout_polls (statusAt : Nat → TaskStatusView)
    (h : ∀ i, statusAt i = TaskStatusView.running) :
    wait_for_task statusAt =
      (WaitOutcome.timedOut, TASK_TIMEOUT / TASK_POLL_INTERVAL + 1) :=
  wait_aux_running statusAt h waitChecks 0

/-- C3 — witness: the amended count at the concrete never-stopping task. -/
theorem c3_wait_for_task_timeout_polls_witness :
    wait_for_task (fun _ => TaskStatusView.running) =
      (WaitOutcome.timedOut, TASK_TIMEOUT / TASK_POLL_INTERVAL + 1) :=
  c3_wait_for_task_timeout_polls (fun _ => TaskStatusView.running) (fun _ => rfl)

/-- C7: the restoration calls of any `create_lxc_snapshot` run are exactly
one per mount-point key of the fetched configuration, each carrying the
original value string unchanged (`restore_lxc_mount_point` sends
`{mp_key: mp_value}` with the very string read before removal) — whatever
the removal, snapshot, await and restoration outcomes are. -/
theorem c7_restore_round_trip (env : LxcSnapEnv) (vmid : Nat) :
    (create_lxc_snapshot env vmid).2.1.filter (fun c => c.isRestore) =
      (mountPointsOf env.config).map
        (fun kv => ApiCall.restoreMountPoint vmid kv.1 kv.2) := by
  have hrem0 : (removePhase env.deleteOk vmid (mountPointsOf env.config)).2.filter
      (fun c => c.isRestore) = [] := by
    apply List.filter_eq_nil_iff.2
    intro c hc
    obtain ⟨k, hk⟩ := removePhase_calls env.deleteOk vmid (mountPointsOf env.config) c hc
    subst hk; simp [ApiCall.isRestore]
  have hfin : (restorePhase env.restoreOk vmid (mountPointsOf env.config)).1.filter
      (fun c => c.isRestore) =
      (mountPointsOf env.config).map
        (fun kv => ApiCall.restoreMountPoint vmid kv.1 kv.2) := by
    rw [restorePhase_fst]
    apply List.filter_eq_self.2
    intro c hc
    obtain ⟨kv, _, hkv⟩ := List.mem_map.1 hc
    subst hkv; rfl
  by_cases hr : (removePhase env.deleteOk vmid (mountPointsOf env.config)).1
  · have hsnap0 : (snapshotAndWait "lxc" vmid env.snapReqResult env.statusAt
        env.now env.stack).2.filter (fun c => c.isRestore) = [] := by
      apply List.filter_eq_nil_iff.2
      intro c hc
      simp [(snapshotAndWait_no_config_put "lxc" vmid env.snapReqResult
        env.statusAt env.now env.stack c hc).2]
    simp only [create_lxc_snapshot, hr, if_true, List.filter_cons, List.filter_append,
      hrem0, hsnap0, hfin]
    simp [ApiCall.isRestore]
  · simp only [Bool.not_eq_true] at hr
    simp only [create_lxc_snapshot, hr, Bool.false_eq_true, if_false, List.filter_cons,
      List.filter_append, hrem0, hfin]
    simp [ApiCall.isRestore]

/-- C1: in a `create_lxc_snapshot` run whose removal calls all succeed, the
trace is exactly — config read, one removal call per mount-point key (N of
them), the snapshot request, its status polls, then one restoration attempt
per key (N again).  The environment quantifies over every outcome of the
snapshot request, of the task await and of each restoration call, so the N
restoration attempts happen on every exit path, including when the snapshot
request or the await fails fatally and when earlier restoration attempts
failed (failed restorations only produce warnings, see `restorePhase`). -/
theorem c1_detach_restore_exhaustive (env : LxcSnapEnv) (vmid : Nat)
    (hdel : ∀ kv ∈ mountPointsOf env.config, env.deleteOk kv.1 = true) :
    ∃ polls : List ApiCall,
      (create_lxc_snapshot env vmid).2.1 =
        ApiCall.getConfig vmid ::
          ((mountPointsOf env.config).map (fun kv => ApiCall.deleteMountPoint vmid kv.1)
            ++ (ApiCall.snapshotRequest "lxc" vmid (snapnameOf env.now)
                (descriptionOf env.stack env.now) false :: polls)
            ++ (mountPointsOf env.config).map
                (fun kv => ApiCall.restoreMountPoint vmid kv.1 kv.2)) ∧
      (∀ c ∈ polls, ∃ u, c = ApiCall.taskStatusQuery u) ∧
      (create_lxc_snapshot env vmid).2.1.countP (fun c => c.isDelete) =
        (mountPointsOf env.config).length ∧
      (create_lxc_snapshot env vmid).2.1.countP (fun c => c.isRestore) =
        (mountPointsOf env.config).length := by
  obtain ⟨polls, htr, hpolls⟩ :=
    snapshotAndWait_trace "lxc" vmid env.snapReqResult env.statusAt env.now env.stack
  have hmain := create_lxc_snapshot_ok_trace env vmid hdel
  have hdelmap : ((mountPointsOf env.config).map
      (fun kv => ApiCall.deleteMountPoint vmid kv.1)).countP (fun c => c.isDelete) =
      (mountPointsOf env.config).length := by
    rw [← List.length_map (mountPointsOf env.config)
      (fun kv => ApiCall.deleteMountPoint vmid kv.1), List.countP_eq_length]
    intro c hc
    obtain ⟨kv, _, hkv⟩ := List.mem_map.1 hc
    subst hkv; rfl
  have hresmap : ((mountPointsOf env.config).map
      (fun kv => ApiCall.restoreMountPoint vmid kv.1 kv.2)).countP (fun c => c.isRestore) =
      (mountPointsOf env.config).length := by
    rw [← List.length_map (mountPointsOf env.config)
      (fun kv => ApiCall.restoreMountPoint vmid kv.1 kv.2), List.countP_eq_length]
    intro c hc
    obtain ⟨kv, _, hkv⟩ := List.mem_map.1 hc
    subst hkv; rfl
  have hdelmap0 : ((mountPointsOf env.config).map
      (fun kv => ApiCall.restoreMountPoint vmid kv.1 kv.2)).countP (fun c => c.isDelete) = 0 := by
    rw [List.countP_eq_zero]
    intro c hc
    obtain ⟨kv, _, hkv⟩ := List.mem_map.1 hc
    subst hkv; simp [ApiCall.isDelete]
  have hresmap0 : ((mountPointsOf env.config).map
      (fun kv => ApiCall.deleteMountPoint vmid kv.1)).countP (fun c => c.isRestore) = 0 := by
    rw [List.countP_eq_zero]
    intro c hc
    obtain ⟨kv, _, hkv⟩ := List.mem_map.1 hc
    subst hkv; simp [ApiCall.isRestore]
  have hsnapdel0 : (snapshotAndWait "lxc" vmid env.snapReqResult env.statusAt
      env.now env.stack).2.countP (fun c => c.isDelete) = 0 := by
    rw [List.countP_eq_zero]
    intro c hc
    simp [(snapshotAndWait_no_config_put "lxc" vmid env.snapReqResult
      env.statusAt env.now env.stack c hc).1]
  have hsnapres0 : (snapshotAndWait "lxc" vmid env.snapReqResult env.statusAt
      env.now env.stack).2.countP (fun c => c.isRestore) = 0 := by
    rw [List.countP_eq_zero]
    intro c hc
    simp [(snapshotAndWait_no_config_put "lxc" vmid env.snapReqResult
      env.statusAt env.now env.stack c hc).2]
  refine ⟨polls, ?_, hpolls, ?_, ?_⟩
  · rw [hmain]
    simp only [htr]
    simp [List.append_assoc]
  · rw [hmain]
    simp only [List.countP_cons, List.countP_append]
    rw [hdelmap, hdelmap0, hsnapdel0]
    simp [ApiCall.isDelete]
  · rw [hmain]
    simp only [List.countP_cons, List.countP_append]
    rw [hresmap, hresmap0, hsnapres0]
    simp [ApiCall.isRestore]

/-- Concrete run for the C1 witness: two mount points, a snapshot request
that fails fatally, and restoration calls that all fail. -/
def c1Env : LxcSnapEnv where
  config := [("arch", "amd64"), ("hostname", "web"),
    ("mp0", "local-zfs:subvol-100-disk-1,mp=/srv/data,backup=1"),
    ("mp1", "tank:subvol-100-disk-2,mp=/srv/media")]
  deleteOk := fun _ => true
  snapReqResult := .fatal
  statusAt := fun _ => .running
  restoreOk := fun _ => false
  now := ⟨2026, 10, 7, 12, 0, 0⟩
  stack := "mystack"

/-- C1 — witness: on the concrete run both mount points are removed and,
although the snapshot request and every restoration call fail, both
restoration attempts still happen. -/
theorem c1_detach_restore_exhaustive_witness :
    (∀ kv ∈ mountPointsOf c1Env.config, c1Env.deleteOk kv.1 = true) ∧
    (create_lxc_snapshot c1Env 100).2.1.countP (fun c => c.isDelete) = 2 ∧
    (create_lxc_snapshot c1Env 100).2.1.countP (fun c => c.isRestore) = 2 := by
  obtain ⟨polls, htr, hp, hd, hr⟩ := c1_detach_restore_exhaustive c1Env 100 (by decide)
  exact ⟨by decide, hd.trans (by decide), hr.trans (by decide)⟩

/-- C9: when the removal call for one mount-point key fails fatally after
the earlier keys were removed, the `finally` scope still runs before the
fatal exit propagates (`.1 = false`): the trace shows only the issued
removal calls (the successful ones plus the failing one) and no snapshot
request, yet one restoration attempt for EVERY originally enumerated
mount-point key — including the ones that were never removed. -/
theorem c9_restore_scope_after_partial_removal (env : LxcSnapEnv) (vmid : Nat)
    (pre : List (String × String)) (kv : String × String) (post : List (String × String))
    (hsplit : mountPointsOf env.config = pre ++ kv :: post)
    (hpre : ∀ kv2 ∈ pre, env.deleteOk kv2.1 = true)
    (hfail : env.deleteOk kv.1 = false) :
    (create_lxc_snapshot env vmid).1 = false ∧
    (create_lxc_snapshot env vmid).2.1 =
      ApiCall.getConfig vmid ::
        ((pre ++ [kv]).map (fun kv2 => ApiCall.deleteMountPoint vmid kv2.1)
          ++ (mountPointsOf env.config).map
              (fun kv2 => ApiCall.restoreMountPoint vmid kv2.1 kv2.2)) ∧
    (create_lxc_snapshot env vmid).2.1.countP (fun c => c.isSnapshotReq) = 0 ∧
    (create_lxc_snapshot env vmid).2.1.countP (fun c => c.isRestore) =
      (mountPointsOf env.config).length := by
  have hrem := removePhase_fail env.deleteOk vmid pre kv post hpre hfail
  have htr : create_lxc_snapshot env vmid =
      (false, ApiCall.getConfig vmid ::
        ((pre ++ [kv]).map (fun kv2 => ApiCall.deleteMountPoint vmid kv2.1)
          ++ (pre ++ kv :: post).map
              (fun kv2 => ApiCall.restoreMountPoint vmid kv2.1 kv2.2)),
        (restorePhase env.restoreOk vmid (pre ++ kv :: post)).2) := by
    simp [create_lxc_snapshot, hsplit, hrem, restorePhase_fst]
  have hdel0 : ∀ (l : List (String × String)) (p : ApiCall → Bool),
      (∀ v k, p (ApiCall.deleteMountPoint v k) = false) →
      (l.map (fun kv2 => ApiCall.deleteMountPoint vmid kv2.1)).countP p = 0 := by
    intro l p hp
    rw [List.countP_eq_zero]
    intro c hc
    obtain ⟨kv2, _, hkv2⟩ := List.mem_map.1 hc
    subst hkv2; simp [hp]
  have hres : ((pre ++ kv :: post).map
      (fun kv2 => ApiCall.restoreMountPoint vmid kv2.1 kv2.2)).countP
      (fun c => c.isRestore) = (pre ++ kv :: post).length := by
    rw [← List.length_map (pre ++ kv :: post)
      (fun kv2 => ApiCall.restoreMountPoint vmid kv2.1 kv2.2), List.countP_eq_length]
    intro c hc
    obtain ⟨kv2, _, hkv2⟩ := List.mem_map.1 hc
    subst hkv2; rfl
  have hres0 : ((pre ++ kv :: post).map
      (fun kv2 => ApiCall.restoreMountPoint vmid kv2.1 kv2.2)).countP
      (fun c => c.isSnapshotReq) = 0 := by
    rw [List.countP_eq_zero]
    intro c hc
    obtain ⟨kv2, _, hkv2⟩ := List.mem_map.1 hc
    subst hkv2; simp [ApiCall.isSnapshotReq]
  refine ⟨by rw [htr], by rw [htr, hsplit], ?_, ?_⟩
  · rw [htr]
    simp only [List.countP_cons, List.countP_append]
    rw [hdel0 _ _ (fun v k => rfl), hres0]
    simp [ApiCall.isSnapshotReq]
  · rw [htr, hsplit]
    simp only [List.countP_cons, List.countP_append]
    rw [hdel0 _ _ (fun v k => rfl), hres]
    simp [ApiCall.isRestore]

/-- Concrete run for the C9 witness: three mount points, the second removal
call fails. -/
def c9Env : LxcSnapEnv where
  config := [("hostname", "db"),
    ("mp0", "local-zfs:subvol-101-disk-1,mp=/a"),
    ("mp1", "local-zfs:subvol-101-disk-2,mp=/b"),
    ("mp2", "local-zfs:subvol-101-disk-3,mp=/c")]
  deleteOk := fun k => !(k = "mp1")
  snapReqResult := .ok (some "UPID:pve1:0000:task")
  statusAt := fun _ => .stopped "OK"
  restoreOk := fun _ => true
  now := ⟨2026, 10, 7, 12, 0, 0⟩
  stack := "mystack"

/-- C9 — witness: the removal of `mp1` fails after `mp0` was removed; no
snapshot request is issued and all three mount points (`mp2` was never
removed) are submitted for restoration. -/
theorem c9_restore_scope_after_partial_removal_witness :
    mountPointsOf c9Env.config =
      [("mp0", "local-zfs:subvol-101-disk-1,mp=/a")] ++
        ("mp1", "local-zfs:subvol-101-disk-2,mp=/b") ::
          [("mp2", "local-zfs:subvol-101-disk-3,mp=/c")] ∧
    c9Env.deleteOk "mp1" = false ∧
    (create_lxc_snapshot c9Env 101).1 = false ∧
    (create_lxc_snapshot c9Env 101).2.1.countP (fun c => c.isSnapshotReq) = 0 ∧
    (create_lxc_snapshot c9Env 101).2.1.countP (fun c => c.isRestore) = 3 := by
  obtain ⟨h1, _, h3, h4⟩ := c9_restore_scope_after_partial_removal c9Env 101
    [("mp0", "local-zfs:subvol-101-disk-1,mp=/a")]
    ("mp1", "local-zfs:subvol-101-disk-2,mp=/b")
    [("mp2", "local-zfs:subvol-101-disk-3,mp=/c")]
    (by decide) (by decide) (by decide)
  exact ⟨by decide, by decide, h1, h3, h4.trans (by decide)⟩

/-- C10: an entry is treated as a mount point exactly when its key begins
with the two characters `mp` — no constraint on what follows and no
inspection of the value — and, in a run whose removals succeed, the keys
removed and the keys restored are exactly the so-classified ones. -/
theorem c10_mount_point_classification (env : LxcSnapEnv) (vmid : Nat)
    (hdel : ∀ kv ∈ mountPointsOf env.config, env.deleteOk kv.1 = true) :
    (∀ k v, (k, v) ∈ mountPointsOf env.config ↔
      ((k, v) ∈ env.config ∧ strStartsWith k "mp" = true)) ∧
    (∀ k, ApiCall.deleteMountPoint vmid k ∈ (create_lxc_snapshot env vmid).2.1 ↔
      ∃ v, (k, v) ∈ env.config ∧ strStartsWith k "mp" = true) ∧
    (∀ k v, ApiCall.restoreMountPoint vmid k v ∈ (create_lxc_snapshot env vmid).2.1 ↔
      ((k, v) ∈ env.config ∧ strStartsWith k "mp" = true)) := by
  have hmem : ∀ k v, (k, v) ∈ mountPointsOf env.config ↔
      ((k, v) ∈ env.config ∧ strStartsWith k "mp" = true) := by
    intro k v
    simp [mountPointsOf, List.mem_filter]
  have hmain := create_lxc_snapshot_ok_trace env vmid hdel
  have h2 : ∀ k, ApiCall.deleteMountPoint vmid k ∈ (create_lxc_snapshot env vmid).2.1 ↔
      ∃ v, (k, v) ∈ mountPointsOf env.config := by
    intro k
    rw [hmain]
    constructor
    · intro h
      rcases List.mem_cons.1 h with h | h
      · exact absurd h (by simp)
      rcases List.mem_append.1 h with h | h
      · rcases List.mem_append.1 h with h | h
        · obtain ⟨kv, hkv, hc⟩ := List.mem_map.1 h
          simp only [ApiCall.deleteMountPoint.injEq] at hc
          refine ⟨kv.2, ?_⟩
          obtain ⟨k1, v1⟩ := kv
          simp only at hc
          obtain ⟨-, hk⟩ := hc
          subst hk
          exact hkv
        · have := (snapshotAndWait_no_config_put "lxc" vmid env.snapReqResult
            env.statusAt env.now env.stack _ h).1
          simp [ApiCall.isDelete] at this
      · obtain ⟨kv, _, hc⟩ := List.mem_map.1 h
        exact absurd hc (by simp)
    · rintro ⟨v, hv⟩
      apply List.mem_cons_of_mem
      apply List.mem_append_left
      apply List.mem_append_left
      exact List.mem_map.2 ⟨(k, v), hv, rfl⟩
  have h3 : ∀ k v, ApiCall.restoreMountPoint vmid k v ∈ (create_lxc_snapshot env vmid).2.1 ↔
      (k, v) ∈ mountPointsOf env.config := by
    intro k v
    rw [hmain]
    constructor
    · intro h
      rcases List.mem_cons.1 h with h | h
      · exact absurd h (by simp)
      rcases List.mem_append.1 h with h | h
      · rcases List.mem_append.1 h with h | h
        · obtain ⟨kv, _, hc⟩ := List.mem_map.1 h
          exact absurd hc (by simp)
        · have := (snapshotAndWait_no_config_put "lxc" vmid env.snapReqResult
            env.statusAt env.now env.stack _ h).2
          simp [ApiCall.isRestore] at this
      · obtain ⟨kv, hkv, hc⟩ := List.mem_map.1 h
        simp only [ApiCall.restoreMountPoint.injEq] at hc
        obtain ⟨k1, v1⟩ := kv
        simp only at hc
        obtain ⟨-, hk, hv1⟩ := hc
        subst hk
        subst hv1
        exact hkv
    · intro hv
      apply List.mem_cons_of_mem
      apply List.mem_append_right
      exact List.mem_map.2 ⟨(k, v), hv, rfl⟩
  refine ⟨hmem, fun k => (h2 k).trans ?_, fun k v => (h3 k v).trans (hmem k v)⟩
  exact exists_congr fun v => hmem k v

/-- Concrete run for the C10 witness: keys `mp0`, `mp` and `mpfoo` are all
classified as mount points (no digit required after `mp`), `memory` is not. -/
def c10Env : LxcSnapEnv where
  config := [("memory", "2048"), ("mp0", "local-zfs:subvol-1,mp=/d"),
    ("mp", "oddkey"), ("mpfoo", "odderkey")]
  deleteOk := fun _ => true
  snapReqResult := .ok (some "UPID:pve1:0001:task")
  statusAt := fun _ => .stopped "OK"
  restoreOk := fun _ => true
  now := ⟨2026, 10, 7, 12, 0, 0⟩
  stack := "mystack"

/-- C10 — witness: `mpfoo` and the bare `mp` are removed, `memory` is not,
and `mp0` is restored with its original value. -/
theorem c10_mount_point_classification_witness :
    (∀ kv ∈ mountPointsOf c10Env.config, c10Env.deleteOk kv.1 = true) ∧
    ApiCall.deleteMountPoint 100 "mpfoo" ∈ (create_lxc_snapshot c10Env 100).2.1 ∧
    ApiCall.deleteMountPoint 100 "mp" ∈ (create_lxc_snapshot c10Env 100).2.1 ∧
    ApiCall.deleteMountPoint 100 "memory" ∉ (create_lxc_snapshot c10Env 100).2.1 ∧
    ApiCall.restoreMountPoint 100 "mp0" "local-zfs:subvol-1,mp=/d" ∈
      (create_lxc_snapshot c10Env 100).2.1 := by
  obtain ⟨hcls, hdel, hres⟩ := c10_mount_point_classification c10Env 100 (by decide)
  refine ⟨by decide, ?_, ?_, ?_, ?_⟩
  · exact (hdel "mpfoo").2 ⟨"odderkey", by decide, by decide⟩
  · exact (hdel "mp").2 ⟨"oddkey", by decide, by decide⟩
  · intro h
    obtain ⟨v, _, hs⟩ := (hdel "memory").1 h
    exact absurd hs (by decide)
  · exact (hres "mp0" "local-zfs:subvol-1,mp=/d").2 ⟨by decide, by decide⟩

/-- The decimal digit characters determine the digits. -/
theorem digitChar_injOn : ∀ a < 10, ∀ b < 10,
    Nat.digitChar a = Nat.digitChar b → a = b := by decide

/-- C8: the snapshot name is `pre_deploy_` followed by the zero-padded
`DD_MM_YYYY_HH_MM_SS` rendering of the clock reading taken when the snapshot
call is prepared (this very `snapnameOf` is the name placed into the
`snapshotRequest` call by `snapshotAndWait`, see `snapshotAndWait_trace`).
The rendering lists all six fields at fixed width, so two distinct
second-resolution clock readings give distinct names; two invocation
instants at least one whole second apart read distinct second-resolution
civil datetimes on an ordinary (fixed-offset) clock, hence distinct names. -/
theorem c8_snapshot_name_injective (dt1 dt2 : DateTime)
    (h1 : dt1.Valid) (h2 : dt2.Valid) (hne : dt1 ≠ dt2) :
    snapnameOf dt1 ≠ snapnameOf dt2 := by
  intro heq
  apply hne
  have hdata : "pre_deploy_".data ++ tsChars dt1 = "pre_deploy_".data ++ tsChars dt2 := by
    have h := congrArg String.data heq
    simpa only [snapnameOf, timestampStr, String.data_append] using h
  have hts : tsChars dt1 = tsChars dt2 := by
    exact List.append_cancel_left hdata
  obtain ⟨y1, mo1, d1, hh1, mi1, s1⟩ := dt1
  obtain ⟨y2, mo2, d2, hh2, mi2, s2⟩ := dt2
  obtain ⟨hy1a, hy1b, hmo1a, hmo1b, hd1a, hd1b, hh1a, hmi1a, hs1a⟩ := h1
  obtain ⟨hy2a, hy2b, hmo2a, hmo2b, hd2a, hd2b, hh2a, hmi2a, hs2a⟩ := h2
  simp only at hy1a hy1b hmo1a hmo1b hd1a hd1b hh1a hmi1a hs1a
  simp only at hy2a hy2b hmo2a hmo2b hd2a hd2b hh2a hmi2a hs2a
  simp only [tsChars, pad2, pad4, List.cons_append, List.nil_append,
    List.cons.injEq, and_true, true_and] at hts
  obtain ⟨ed1, ed2, emo1, emo2, ey1, ey2, ey3, ey4, eh1, eh2, emi1, emi2, es1, es2⟩ := hts
  have hd : d1 = d2 := by
    have q1 := digitChar_injOn (d1 / 10) (by omega) (d2 / 10) (by omega) ed1
    have q2 := digitChar_injOn (d1 % 10) (by omega) (d2 % 10) (by omega) ed2
    omega
  have hmo : mo1 = mo2 := by
    have q1 := digitChar_injOn (mo1 / 10) (by omega) (mo2 / 10) (by omega) emo1
    have q2 := digitChar_injOn (mo1 % 10) (by omega) (mo2 % 10) (by omega) emo2
    omega
  have hy : y1 = y2 := by
    have q1 := digitChar_injOn (y1 / 1000) (by omega) (y2 / 1000) (by omega) ey1
    have q2 := digitChar_injOn (y1 / 100 % 10) (by omega) (y2 / 100 % 10) (by omega) ey2
    have q3 := digitChar_injOn (y1 / 10 % 10) (by omega) (y2 / 10 % 10) (by omega) ey3
    have q4 := digitChar_injOn (y1 % 10) (by omega) (y2 % 10) (by omega) ey4
    omega
  have hh : hh1 = hh2 := by
    have q1 := digitChar_injOn (hh1 / 10) (by omega) (hh2 / 10) (by omega) eh1
    have q2 := digitChar_injOn (hh1 % 10) (by omega) (hh2 % 10) (by omega) eh2
    omega
  have hmi : mi1 = mi2 := by
    have q1 := digitChar_injOn (mi1 / 10) (by omega) (mi2 / 10) (by omega) emi1
    have q2 := digitChar_injOn (mi1 % 10) (by omega) (mi2 % 10) (by omega) emi2
    omega
  have hs : s1 = s2 := by
    have q1 := digitChar_injOn (s1 / 10) (by omega) (s2 / 10) (by omega) es1
    have q2 := digitChar_injOn (s1 % 10) (by omega) (s2 % 10) (by omega) es2
    omega
  simp [hd, hmo, hy, hh, hmi, hs]

/-- C8 — witness: two clock readings one second apart yield distinct
snapshot names. -/
theorem c8_snapshot_name_injective_witness :
    DateTime.Valid ⟨2026, 10, 7, 12, 0, 0⟩ ∧ DateTime.Valid ⟨2026, 10, 7, 12, 0, 1⟩ ∧
    (⟨2026, 10, 7, 12, 0, 0⟩ : DateTime) ≠ ⟨2026, 10, 7, 12, 0, 1⟩ ∧
    snapnameOf ⟨2026, 10, 7, 12, 0, 0⟩ ≠ snapnameOf ⟨2026, 10, 7, 12, 0, 1⟩ :=
  ⟨by decide, by decide, by decide,
    c8_snapshot_name_injective ⟨2026, 10, 7, 12, 0, 0⟩ ⟨2026, 10, 7, 12, 0, 1⟩
      (by decide) (by decide) (by decide)⟩

/-- C4 (settled against the spec-modelled bind-mount-skip procedure, the
second workflow variant not under the provided sources): when at least one
mount-point value has an absolute source path, the procedure reports
`skipped` with exit code 0 and issues no mutating call at all — no removal,
no restoration and no snapshot request. -/
theorem c4_bind_mount_skip (env : BindSkipEnv) (vmid : Nat)
    (h : (mountPointsOf env.config).any (fun kv => isBindMount kv.2) = true) :
    (create_lxc_snapshot_skip env vmid).1 = SnapOutcome.skipped ∧
    (create_lxc_snapshot_skip env vmid).1.exitCode = 0 ∧
    (∀ c ∈ (create_lxc_snapshot_skip env vmid).2.1, c.isMutating = false) ∧
    (create_lxc_snapshot_skip env vmid).2.1.countP (fun c => c.isSnapshotReq) = 0 := by
  obtain ⟨kv, hkv, hb⟩ := List.any_eq_true.1 h
  have hmem : kv ∈ (mountPointsOf env.config).filter (fun kv => isBindMount kv.2) :=
    List.mem_filter.2 ⟨hkv, hb⟩
  have hne : ((mountPointsOf env.config).filter (fun kv => isBindMount kv.2)).isEmpty
      = false := by
    cases hfe : ((mountPointsOf env.config).filter (fun kv => isBindMount kv.2)) with
    | nil => rw [hfe] at hmem; exact absurd hmem (List.not_mem_nil kv)
    | cons a l => simp [hfe, List.isEmpty]
  have htr : create_lxc_snapshot_skip env vmid =
      (SnapOutcome.skipped, [ApiCall.getConfig vmid],
        ["WARNING: bind mounts present, skipping snapshot"]) := by
    simp [create_lxc_snapshot_skip, hne]
  refine ⟨by rw [htr], by rw [htr]; rfl, ?_, by rw [htr]; rfl⟩
  intro c hc
  rw [htr] at hc
  simp only [List.mem_cons, List.not_mem_nil, or_false] at hc
  subst hc
  rfl

/-- Concrete run for the C4 witness: `mp1` is a bind mount (absolute source
path before the first comma). -/
def c4Env : BindSkipEnv where
  config := [("hostname", "web"),
    ("mp0", "local-zfs:subvol-100-disk-1,mp=/srv/data"),
    ("mp1", "/tank/media,mp=/srv/media")]
  snapReqResult := .ok (some "UPID:pve1:0002:task")
  statusAt := fun _ => .stopped "OK"
  now := ⟨2026, 10, 7, 12, 0, 0⟩
  stack := "mystack"

/-- C4 — witness: with the bind mount `mp1` present the run reports
`skipped`, exit code 0, and its trace is the lone config read. -/
theorem c4_bind_mount_skip_witness :
    (mountPointsOf c4Env.config).any (fun kv => isBindMount kv.2) = true ∧
    (create_lxc_snapshot_skip c4Env 100).1 = SnapOutcome.skipped ∧
    (create_lxc_snapshot_skip c4Env 100).1.exitCode = 0 ∧
    (create_lxc_snapshot_skip c4Env 100).2.1.countP (fun c => c.isSnapshotReq) = 0 := by
  obtain ⟨ho, he, _, hc⟩ := c4_bind_mount_skip c4Env 100 (by decide)
  exact ⟨by decide, ho, he, hc⟩

/-- The LXC loop returns the first matching container id — the head of the
spec-side match list — whenever every config fetch succeeds. -/
theorem findLxcIn_fst (target : String) (l : List LxcEnt)
    (h : l.all lxcOk = true) :
    (findLxcIn target l).1 = .ok (lxcMatchIds target l).head? := by
  induction l with
  | nil => rfl
  | cons e rest ih =>
    rw [List.all_cons, Bool.and_eq_true] at h
    obtain ⟨he, hrest⟩ := h
    cases hv : e.vmid with
    | none =>
      simp only [findLxcIn, lxcMatchIds, List.filterMap_cons, hv]
      exact ih hrest
    | some v =>
      cases hc : e.configFetch with
      | fatal => simp [lxcOk, hc] at he
      | ok cfg =>
        have hg : get_lxc_hostname e = .ok (lookupKey cfg "hostname") := by
          simp [get_lxc_hostname, hc]
        by_cases hm : lookupKey cfg "hostname" = some target
        · simp [findLxcIn, lxcMatchIds, hv, hg, hm]
        · simp only [findLxcIn, lxcMatchIds, List.filterMap_cons, hv, hg, hm,
            if_false, if_neg hm]
          exact ih hrest

/-- The QEMU loop returns the first matching machine id — the head of the
spec-side match list — with no success hypothesis: guest-agent failures
are absorbed by `get_qemu_hostname`. -/
theorem findQemuIn_fst (target : String) (l : List QemuEnt) :
    (findQemuIn target l).1 = (qemuMatchIds target l).head? := by
  induction l with
  | nil => rfl
  | cons e rest ih =>
    cases hv : e.vmid with
    | none =>
      simp only [findQemuIn, qemuMatchIds, List.filterMap_cons, hv]
      exact ih
    | some v =>
      cases hq : get_qemu_hostname e with
      | none =>
        simp only [findQemuIn, qemuMatchIds, List.filterMap_cons, hv, hq]
        exact ih
      | some hn =>
        by_cases hm : hn = target
        · simp [findQemuIn, qemuMatchIds, hv, hq, hm]
        · simp only [findQemuIn, qemuMatchIds, List.filterMap_cons, hv, hq,
            if_neg hm]
          exact ih

/-- The locator refines the spec-side scan order: whenever no listing or
container-config transport failure occurs, it returns exactly the head of
the ordered match list (endpoints in configured order, containers before
machines within each endpoint, first match wins). -/
theorem find_host_fst (hosts : List ProxmoxHost) (target : String)
    (h : noTransportFailure hosts = true) :
    (find_host_in_proxmox hosts target).1 =
      .ok ((specScanMatches hosts target).head?) := by
  induction hosts with
  | nil => rfl
  | cons hc rest ih =>
    rw [noTransportFailure, List.all_cons, Bool.and_eq_true] at h
    obtain ⟨hh, hrest⟩ := h
    cases hl : hc.lxcList with
    | fatal => simp [hostOk, hl] at hh
    | ok lxcs =>
      cases hq : hc.qemuList with
      | fatal => simp [hostOk, hl, hq] at hh
      | ok qemus =>
        have hlall : lxcs.all lxcOk = true := by simpa [hostOk, hl, hq] using hh
        have h1 := findLxcIn_fst target lxcs hlall
        have h2 := findQemuIn_fst target qemus
        cases hm1 : (lxcMatchIds target lxcs).head? with
        | some v =>
          obtain ⟨tl, htl⟩ : ∃ tl, lxcMatchIds target lxcs = v :: tl := by
            cases hll : lxcMatchIds target lxcs with
            | nil => rw [hll] at hm1; simp at hm1
            | cons a tl =>
              rw [hll] at hm1
              simp only [List.head?_cons, Option.some.injEq] at hm1
              exact ⟨tl, by rw [hm1]⟩
          simp [find_host_in_proxmox, hl, hq, h1, hm1, specScanMatches,
            hostMatches, htl]
        | none =>
          have hll : lxcMatchIds target lxcs = [] := List.head?_eq_none_iff.1 hm1
          cases hm2 : (qemuMatchIds target qemus).head? with
          | some v =>
            obtain ⟨tl, htl⟩ : ∃ tl, qemuMatchIds target qemus = v :: tl := by
              cases hqq : qemuMatchIds target qemus with
              | nil => rw [hqq] at hm2; simp at hm2
              | cons a tl =>
                rw [hqq] at hm2
                simp only [List.head?_cons, Option.some.injEq] at hm2
                exact ⟨tl, by rw [hm2]⟩
            simp [find_host_in_proxmox, hl, hq, h1, h2, hm1, hm2, specScanMatches,
              hostMatches, hll, htl]
          | none =>
            have hqq : qemuMatchIds target qemus = [] := List.head?_eq_none_iff.1 hm2
            simp only [find_host_in_proxmox, hl, hq, h1, h2, hm1, hm2,
              specScanMatches, hostMatches, hll, hqq, List.map_nil,
              List.nil_append, List.append_nil]
            exact ih hrest

/-- Container priority: whenever the locator returns an entity of some
endpoint and that endpoint has a matching container, the returned entity is
a container. -/
theorem find_priority (hosts : List ProxmoxHost) (target : String)
    (h : noTransportFailure hosts = true) :
    ∀ hc ty v, (find_host_in_proxmox hosts target).1 = .ok (some (hc, ty, v)) →
      hasLxcMatch target hc = true → ty = "lxc" := by
  induction hosts with
  | nil =>
    intro hc ty v heq
    simp [find_host_in_proxmox] at heq
  | cons hc0 rest ih =>
    rw [noTransportFailure, List.all_cons, Bool.and_eq_true] at h
    obtain ⟨hh, hrest⟩ := h
    intro hc ty v heq hmatch
    cases hl : hc0.lxcList with
    | fatal => simp [hostOk, hl] at hh
    | ok lxcs =>
      cases hq : hc0.qemuList with
      | fatal => simp [hostOk, hl, hq] at hh
      | ok qemus =>
        have hlall : lxcs.all lxcOk = true := by simpa [hostOk, hl, hq] using hh
        have h1 := findLxcIn_fst target lxcs hlall
        have h2 := findQemuIn_fst target qemus
        cases hm1 : (lxcMatchIds target lxcs).head? with
        | some v0 =>
          simp only [find_host_in_proxmox, hl, h1, hm1, Fetch.ok.injEq,
            Option.some.injEq, Prod.mk.injEq] at heq
          exact heq.2.1.symm
        | none =>
          have hll : lxcMatchIds target lxcs = [] := List.head?_eq_none_iff.1 hm1
          cases hm2 : (qemuMatchIds target qemus).head? with
          | some v0 =>
            simp only [find_host_in_proxmox, hl, hq, h1, h2, hm1, hm2,
              Fetch.ok.injEq, Option.some.injEq, Prod.mk.injEq] at heq
            rw [← heq.1] at hmatch
            simp [hasLxcMatch, hl, hll] at hmatch
          | none =>
            simp only [find_host_in_proxmox, hl, hq, h1, h2, hm1, hm2] at heq
            exact ih hrest hc ty v heq hmatch

/-- C2: under transport-healthy endpoints the locator equals the spec-side
ordered scan — endpoints in configured order, every container of an endpoint
checked before any machine of that endpoint, exact string equality on the
hostname, and the first match returned immediately (head of the match list);
consequently, when the endpoint of the returned entity also has a matching
container, the returned entity type is the container type. -/
theorem c2_locator_scan_order (hosts : List ProxmoxHost) (target : String)
    (h : noTransportFailure hosts = true) :
    (find_host_in_proxmox hosts target).1 =
      .ok ((specScanMatches hosts target).head?) ∧
    (∀ hc ty v, (find_host_in_proxmox hosts target).1 = .ok (some (hc, ty, v)) →
      hasLxcMatch target hc = true → ty = "lxc") :=
  ⟨find_host_fst hosts target h, find_priority hosts target h⟩

/-- One concrete endpoint for the C2 witness: LXC 100 and QEMU 200 both
report hostname `web`. -/
def c2Host0 : ProxmoxHost where
  url := "https://pve1:8006"
  lxcList := .ok [{ vmid := some 100, configFetch := .ok [("hostname", "web")] }]
  qemuList := .ok [{ vmid := some 200, agentFetch := .ok (some "web") }]

/-- C2 — witness: with both a container and a machine matching in the same
endpoint, the container (LXC 100) is returned. -/
theorem c2_locator_scan_order_witness :
    noTransportFailure [c2Host0] = true ∧
    (find_host_in_proxmox [c2Host0] "web").1 = .ok (some (c2Host0, "lxc", 100)) :=
  ⟨by decide, ((c2_locator_scan_order [c2Host0] "web" (by decide)).1).trans (by decide)⟩

/-- The LXC loop issues only config reads. -/
theorem findLxcIn_trace_reads (target : String) (l : List LxcEnt) :
    ∀ c ∈ (findLxcIn target l).2, c.isMutating = false := by
  induction l with
  | nil => intro c hc; simp [findLxcIn] at hc
  | cons e rest ih =>
    intro c hc
    cases hv : e.vmid with
    | none =>
      rw [findLxcIn, hv] at hc
      exact ih c hc
    | some v =>
      cases hg : get_lxc_hostname e with
      | fatal =>
        rw [findLxcIn, hv, hg] at hc
        simp only [List.mem_cons, List.not_mem_nil, or_false] at hc
        subst hc; rfl
      | ok hn =>
        by_cases hm : hn = some target
        · rw [findLxcIn, hv, hg] at hc
          simp only [hm, if_true, List.mem_cons, List.not_mem_nil, or_false] at hc
          subst hc; rfl
        · rw [findLxcIn, hv, hg] at hc
          simp only [if_neg hm, List.mem_cons] at hc
          rcases hc with hc | hc
          · subst hc; rfl
          · exact ih c hc

/-- The QEMU loop issues only guest-agent queries. -/
theorem findQemuIn_trace_reads (target : String) (l : List QemuEnt) :
    ∀ c ∈ (findQemuIn target l).2, c.isMutating = false := by
  induction l with
  | nil => intro c hc; simp [findQemuIn] at hc
  | cons e rest ih =>
    intro c hc
    cases hv : e.vmid with
    | none =>
      rw [findQemuIn, hv] at hc
      exact ih c hc
    | some v =>
      cases hg : get_qemu_hostname e with
      | none =>
        rw [findQemuIn, hv, hg] at hc
        simp only [List.mem_cons] at hc
        rcases hc with hc | hc
        · subst hc; rfl
        · exact ih c hc
      | some hn =>
        by_cases hm : hn = target
        · rw [findQemuIn, hv, hg] at hc
          simp only [hm, if_true, List.mem_cons, List.not_mem_nil, or_false] at hc
          subst hc; rfl
        · rw [findQemuIn, hv, hg] at hc
          simp only [if_neg hm, List.mem_cons] at hc
          rcases hc with hc | hc
          · subst hc; rfl
          · exact ih c hc

/-- The whole locator issues only reads: listing calls, config reads and
guest-agent queries — never a `PUT` or a snapshot `POST`. -/
theorem find_trace_reads (hosts : List ProxmoxHost) (target : String) :
    ∀ c ∈ (find_host_in_proxmox hosts target).2, c.isMutating = false := by
  induction hosts with
  | nil => intro c hc; simp [find_host_in_proxmox] at hc
  | cons hc0 rest ih =>
    intro c hc
    cases hl : hc0.lxcList with
    | fatal =>
      rw [find_host_in_proxmox, hl] at hc
      simp only [List.mem_cons, List.not_mem_nil, or_false] at hc
      subst hc; rfl
    | ok lxcs =>
      have hlx := findLxcIn_trace_reads target lxcs
      cases hr1 : (findLxcIn target lxcs).1 with
      | fatal =>
        simp only [find_host_in_proxmox, hl, hr1, List.mem_cons] at hc
        rcases hc with hc | hc
        · subst hc; rfl
        · exact hlx c hc
      | ok o =>
        cases o with
        | some v =>
          simp only [find_host_in_proxmox, hl, hr1, List.mem_cons] at hc
          rcases hc with hc | hc
          · subst hc; rfl
          · exact hlx c hc
        | none =>
          cases hq : hc0.qemuList with
          | fatal =>
            simp only [find_host_in_proxmox, hl, hr1, hq, List.mem_cons,
              List.mem_append, List.not_mem_nil, or_false] at hc
            rcases hc with (hc | hc) | hc
            · subst hc; rfl
            · exact hlx c hc
            · subst hc; rfl
          | ok qemus =>
            have hqx := findQemuIn_trace_reads target qemus
            cases hr2 : (findQemuIn target qemus).1 with
            | some v =>
              simp only [find_host_in_proxmox, hl, hr1, hq, hr2, List.mem_cons,
                List.mem_append] at hc
              repeat' rcases hc with hc | hc
              all_goals first
                | rfl
                | exact hlx c hc
                | exact hqx c hc
            | none =>
              simp only [find_host_in_proxmox, hl, hr1, hq, hr2, List.mem_cons,
                List.mem_append] at hc
              repeat' rcases hc with hc | hc
              all_goals first
                | rfl
                | exact hlx c hc
                | exact hqx c hc
                | exact ih c hc

/-- C6: when no entity of any endpoint matches the local hostname (the
spec-side match list is empty) and transport is healthy, `main` exits with
code 1 and its whole trace — the locator's reads — contains no snapshot
request and no configuration-mutating call. -/
theorem c6_not_found_fatal (hosts : List ProxmoxHost) (target : String)
    (lxcEnv : LxcSnapEnv) (qemuEnv : QemuSnapEnv)
    (h1 : noTransportFailure hosts = true)
    (h2 : specScanMatches hosts target = []) :
    (mainModel hosts target lxcEnv qemuEnv).1 = 1 ∧
    (∀ c ∈ (mainModel hosts target lxcEnv qemuEnv).2.1, c.isMutating = false) := by
  have hf : (find_host_in_proxmox hosts target).1 = .ok none := by
    rw [find_host_fst hosts target h1, h2]
    rfl
  constructor
  · simp [mainModel, hf]
  · intro c hc
    simp only [mainModel, hf] at hc
    exact find_trace_reads hosts target c hc

/-- Endpoint for the C6 witness: one container with a different hostname and
one machine whose guest agent is unavailable — nothing matches `web`. -/
def c6Host0 : ProxmoxHost where
  url := "https://pve1:8006"
  lxcList := .ok [{ vmid := some 100, configFetch := .ok [("hostname", "other")] }]
  qemuList := .ok [{ vmid := some 200, agentFetch := .fatal }]

/-- Snapshot-phase behaviour handed to `mainModel` in the C6 witness; never
reached because the locator finds nothing. -/
def c6LxcEnv : LxcSnapEnv where
  config := []
  deleteOk := fun _ => true
  snapReqResult := .fatal
  statusAt := fun _ => .running
  restoreOk := fun _ => true
  now := ⟨2026, 10, 7, 12, 0, 0⟩
  stack := "mystack"

/-- Machine-type snapshot behaviour for the C6 witness; never reached. -/
def c6QemuEnv : QemuSnapEnv where
  snapReqResult := .fatal
  statusAt := fun _ => .running
  now := ⟨2026, 10, 7, 12, 0, 0⟩
  stack := "mystack"

/-- C6 — witness: nothing matches `web`, so `main` exits 1. -/
theorem c6_not_found_fatal_witness :
    noTransportFailure [c6Host0] = true ∧
    specScanMatches [c6Host0] "web" = [] ∧
    (mainModel [c6Host0] "web" c6LxcEnv c6QemuEnv).1 = 1 :=
  ⟨by decide, by decide,
    (c6_not_found_fatal [c6Host0] "web" c6LxcEnv c6QemuEnv (by decide) (by decide)).1⟩

/-- C5 (amended): a guest-agent failure is skipped in place — the QEMU loop
continues with the remaining entities and, under otherwise healthy
transport, the locator never aborts however many guest agents fail; listing
and container-config transport failures do abort the locator.  But the
guest-agent call is NOT the only transport failure the workflow survives:
a failing mount-point restoration call is likewise downgraded (to a
`WARNING:` line) and leaves the run's outcome untouched. -/
theorem c5_agent_failure_skip :
    (∀ (target : String) (e : QemuEnt) (rest : List QemuEnt) (v : Nat),
      e.vmid = some v → e.agentFetch = .fatal →
      (findQemuIn target (e :: rest)).1 = (findQemuIn target rest).1) ∧
    (∀ (hosts : List ProxmoxHost) (target : String),
      noTransportFailure hosts = true →
      (find_host_in_proxmox hosts target).1 ≠ .fatal) ∧
    (∀ (hc : ProxmoxHost) (rest : List ProxmoxHost) (target : String),
      hc.lxcList = .fatal →
      (find_host_in_proxmox (hc :: rest) target).1 = .fatal) ∧
    (∀ (target : String) (e : LxcEnt) (rest : List LxcEnt) (v : Nat),
      e.vmid = some v → e.configFetch = .fatal →
      (findLxcIn target (e :: rest)).1 = .fatal) ∧
    (∀ (hc : ProxmoxHost) (rest : List ProxmoxHost) (target : String)
        (lxcs : List LxcEnt), hc.lxcList = .ok lxcs →
      (findLxcIn target lxcs).1 = .fatal →
      (find_host_in_proxmox (hc :: rest) target).1 = .fatal) ∧
    (∀ (hc : ProxmoxHost) (rest : List ProxmoxHost) (target : String)
        (lxcs : List LxcEnt), hc.lxcList = .ok lxcs →
      (findLxcIn target lxcs).1 = .ok none → hc.qemuList = .fatal →
      (find_host_in_proxmox (hc :: rest) target).1 = .fatal) ∧
    (∀ (env : LxcSnapEnv) (vmid : Nat),
      (create_lxc_snapshot env vmid).2.2 =
        ((mountPointsOf env.config).filter (fun kv => !env.restoreOk kv.1)).map
          (fun kv => "WARNING: Failed to restore " ++ kv.1)) ∧
    (∀ (env : LxcSnapEnv) (vmid : Nat) (ok2 : String → Bool),
      (create_lxc_snapshot env vmid).1 =
        (create_lxc_snapshot { env with restoreOk := ok2 } vmid).1) := by
  refine ⟨?_, ?_, ?_, ?_, ?_, ?_, ?_, ?_⟩
  · intro target e rest v hv ha
    have hg : get_qemu_hostname e = none := by simp [get_qemu_hostname, ha]
    simp [findQemuIn, hv, hg]
  · intro hosts target h
    rw [find_host_fst hosts target h]
    simp
  · intro hc rest target hl
    simp [find_host_in_proxmox, hl]
  · intro target e rest v hv hcf
    have hg : get_lxc_hostname e = .fatal := by simp [get_lxc_hostname, hcf]
    simp [findLxcIn, hv, hg]
  · intro hc rest target lxcs hl hf
    simp [find_host_in_proxmox, hl, hf]
  · intro hc rest target lxcs hl hnone hq
    simp [find_host_in_proxmox, hl, hnone, hq]
  · intro env vmid
    simp only [create_lxc_snapshot, restorePhase_snd]
  · intro env vmid ok2
    simp only [create_lxc_snapshot]

/-- Endpoint for the C5 counterexample and witness runs: LXC 100 matches. -/
def c5Host0 : ProxmoxHost where
  url := "https://pve1:8006"
  lxcList := .ok [{ vmid := some 100
                    configFetch := .ok
                      [("hostname", "web"), ("mp0", "local-zfs:subvol-1,mp=/d")] }]
  qemuList := .ok []

/-- Snapshot-phase behaviour for the C5 counterexample: everything succeeds
except the `mp0` restoration call, whose `make_request` fails
(`restoreOk "mp0" = false` models the caught `SystemExit`). -/
def c5LxcEnv : LxcSnapEnv where
  config := [("hostname", "web"), ("mp0", "local-zfs:subvol-1,mp=/d")]
  deleteOk := fun _ => true
  snapReqResult := .ok (some "UPID:pve1:0003:task")
  statusAt := fun _ => .stopped "OK"
  restoreOk := fun _ => false
  now := ⟨2026, 10, 7, 12, 0, 0⟩
  stack := "mystack"

/-- Machine-type behaviour for the C5 counterexample; never reached. -/
def c5QemuEnv : QemuSnapEnv where
  snapReqResult := .fatal
  statusAt := fun _ => .running
  now := ⟨2026, 10, 7, 12, 0, 0⟩
  stack := "mystack"

/-- C5 — counterexample to "a guest-agent failure is the only transport
failure that does not abort the workflow": here the transport failure of
the `mp0` restoration `PUT` (a `SystemExit` caught inside the `finally`
loop) produces a warning, yet the whole workflow still exits 0. -/
theorem c5_agent_failure_skip_counterexample :
    (mainModel [c5Host0] "web" c5LxcEnv c5QemuEnv).1 = 0 ∧
    (mainModel [c5Host0] "web" c5LxcEnv c5QemuEnv).2.2 =
      ["WARNING: Failed to restore mp0"] := by
  constructor
  · decide
  · decide

/-- Endpoint with a failing guest agent for the C5 witness. -/
def c5AgentHost : ProxmoxHost where
  url := "https://pve2:8006"
  lxcList := .ok []
  qemuList := .ok [{ vmid := some 200, agentFetch := .fatal },
    { vmid := some 201, agentFetch := .ok (some "web") }]

/-- Endpoint whose container listing call fails, for the C5 witness. -/
def c5FatalHost : ProxmoxHost where
  url := "https://pve3:8006"
  lxcList := .fatal
  qemuList := .ok []

/-- Endpoint whose lone container's config fetch fails, for the C5 witness. -/
def c5CfgFatalHost : ProxmoxHost where
  url := "https://pve4:8006"
  lxcList := .ok [{ vmid := some 100, configFetch := .fatal }]
  qemuList := .ok []

/-- Endpoint whose machine listing call fails, for the C5 witness. -/
def c5QemuListFatalHost : ProxmoxHost where
  url := "https://pve5:8006"
  lxcList := .ok []
  qemuList := .fatal

/-- C5 — witness: the failing agent of VM 200 is skipped (the loop result
equals the loop result on the remaining entities, and the locator still
succeeds, finding VM 201), while a failing container listing, a failing
container config fetch and a failing machine listing each abort. -/
theorem c5_agent_failure_skip_witness :
    (QemuEnt.mk (some 200) Fetch.fatal).vmid = some 200 ∧
    (QemuEnt.mk (some 200) Fetch.fatal).agentFetch = .fatal ∧
    (findQemuIn "web" [⟨some 200, .fatal⟩, ⟨some 201, .ok (some "web")⟩]).1 =
      (findQemuIn "web" [⟨some 201, .ok (some "web")⟩]).1 ∧
    noTransportFailure [c5AgentHost] = true ∧
    (find_host_in_proxmox [c5AgentHost] "web").1 ≠ .fatal ∧
    c5FatalHost.lxcList = .fatal ∧
    (find_host_in_proxmox [c5FatalHost] "web").1 = .fatal ∧
    (LxcEnt.mk (some 100) Fetch.fatal).vmid = some 100 ∧
    (LxcEnt.mk (some 100) Fetch.fatal).configFetch = .fatal ∧
    (findLxcIn "web" [⟨some 100, .fatal⟩]).1 = .fatal ∧
    c5CfgFatalHost.lxcList = .ok [⟨some 100, .fatal⟩] ∧
    (find_host_in_proxmox [c5CfgFatalHost] "web").1 = .fatal ∧
    c5QemuListFatalHost.qemuList = .fatal ∧
    (find_host_in_proxmox [c5QemuListFatalHost] "web").1 = .fatal :=
  ⟨rfl, rfl,
    c5_agent_failure_skip.1 "web" ⟨some 200, .fatal⟩
      [⟨some 201, .ok (some "web")⟩] 200 rfl rfl,
    by decide,
    c5_agent_failure_skip.2.1 [c5AgentHost] "web" (by decide),
    rfl,
    c5_agent_failure_skip.2.2.1 c5FatalHost [] "web" rfl,
    rfl, rfl,
    c5_agent_failure_skip.2.2.2.1 "web" ⟨some 100, .fatal⟩ [] 100 rfl rfl,
    rfl,
    c5_agent_failure_skip.2.2.2.2.1 c5CfgFatalHost [] "web"
      [⟨some 100, .fatal⟩] rfl (by decide),
    rfl,
    c5_agent_failure_skip.2.2.2.2.2.1 c5QemuListFatalHost [] "web" [] rfl
      (by decide) rfl⟩
